import Mathlib

/-!
Shallow embedding of `src/hal/Lvacfs.cpp` (the LVACFS wrapper binding layer
of the audio HAL) and proofs about its initialization, path resolution,
per-stream session lifecycle and frame-count arithmetic.

External collaborators (the dynamic loader, the filesystem, the closed
wrapper module, `calloc`) are modelled as environments of outcomes; a
resolved symbol or a loaded library handle is an abstract `Option Nat`
(`none` models the null pointer returned on failure).  Capability
invocations performed by the code are recorded in an event trace so that
theorems can speak about which entry points were called and with what
arguments.
-/

namespace Lvacfs

/-- Path constants from lines 24-36 of the source (the LP64 variant of the
library directories). -/
def VENDOR_LIBS : String := "/vendor/lib64/"

def ODM_LIBS : String := "/odm/lib64/"

def LVACFS_WRAPPER_LIB_NAME : String := "liblvacfs_wrapper.so"

def VENDOR_LIB_PATH : String := VENDOR_LIBS ++ LVACFS_WRAPPER_LIB_NAME

def ODM_LIB_PATH : String := ODM_LIBS ++ LVACFS_WRAPPER_LIB_NAME

def ODM_PARAMS_DIR_PATH : String := "/odm/etc/lvacfs_params"

def VENDOR_PARAMS_DIR_PATH : String := "/vendor/etc/lvacfs_params"

/-- The `struct lvacfs_wrapper_ops`: a library handle plus the ten
capability entry points, each an `Option Nat` standing for a (possibly
null) function pointer. -/
structure WrapperOps where
  lib_handle : Option Nat
  create_instance : Option Nat
  destroy_instance : Option Nat
  process : Option Nat
  update_zoom_info : Option Nat
  update_angle_info : Option Nat
  set_params_file_path : Option Nat
  set_profile : Option Nat
  set_audio_direction : Option Nat
  set_device_orientation : Option Nat
  get_versions : Option Nat
deriving DecidableEq

/-- The struct as produced by `std::make_unique<struct lvacfs_wrapper_ops>()`,
which value-initializes every member to the null pointer. -/
def WrapperOps.valueInit : WrapperOps :=
  ⟨none, none, none, none, none, none, none, none, none, none, none⟩

/-- The fields of the `Lvacfs` object that `init`/`deinit` touch:
`params_file_path_` (unset until `init` resolves it) and the owning
pointer `wrapper_ops_` (`none` models the null `unique_ptr`). -/
structure LvacfsState where
  params_file_path_ : Option String
  wrapper_ops_ : Option WrapperOps
deriving DecidableEq

/-- The engine before `init` has ever been called. -/
def LvacfsState.fresh : LvacfsState := ⟨none, none⟩

/-- Outcomes of the external calls `init` makes: `access` on the two params
directories, the `make_unique` allocation, `dlopen` keyed by path, and
`dlsym` keyed by library handle and symbol name. -/
structure InitEnv where
  odmParamsDirExists : Bool
  vendorParamsDirExists : Bool
  allocWrapperOps : Bool
  dlopenRes : String → Option Nat
  dlsymRes : Nat → String → Option Nat

/-- Observable side effects of the engine lifecycle. -/
inductive EngineEvent
  | dlcloseEv (handle : Nat)
deriving DecidableEq

/-- Lines 92-98: `dlclose` the library if both the struct and its handle
are non-null, then reset the owning pointer. -/
def deinit (s : LvacfsState) : LvacfsState × List EngineEvent :=
  let evs :=
    match s.wrapper_ops_ with
    | some ops =>
      match ops.lib_handle with
      | some h => [EngineEvent.dlcloseEv h]
      | none => []
    | none => []
  ({ s with wrapper_ops_ := none }, evs)

/-- Lines 54-61: `dlopen` the ODM library path first; only when that
returns null, try the vendor library path. -/
def loadWrapperLib (env : InitEnv) : Option Nat :=
  match env.dlopenRes ODM_LIB_PATH with
  | some h => some h
  | none => env.dlopenRes VENDOR_LIB_PATH

/-- Lines 63-83: the short-circuit chain of ten `dlsym` calls, assigning
each resolved capability into the struct in source order and stopping at
the first null result.  Returns the (possibly partially assigned) struct
and whether every symbol resolved. -/
def resolveSymbols (env : InitEnv) (h : Nat) (ops0 : WrapperOps) : WrapperOps × Bool :=
  match env.dlsymRes h "lvacfs_wrapper_CreateLibraryInstance" with
  | none => (ops0, false)
  | some p1 =>
  let ops1 := { ops0 with create_instance := some p1 }
  match env.dlsymRes h "lvacfs_wrapper_DestroyLibraryInstance" with
  | none => (ops1, false)
  | some p2 =>
  let ops2 := { ops1 with destroy_instance := some p2 }
  match env.dlsymRes h "lvacfs_wrapper_Process" with
  | none => (ops2, false)
  | some p3 =>
  let ops3 := { ops2 with process := some p3 }
  match env.dlsymRes h "lvacfs_wrapper_UpdateZoomInfo" with
  | none => (ops3, false)
  | some p4 =>
  let ops4 := { ops3 with update_zoom_info := some p4 }
  match env.dlsymRes h "lvacfs_wrapper_UpdateAngleInfo" with
  | none => (ops4, false)
  | some p5 =>
  let ops5 := { ops4 with update_angle_info := some p5 }
  match env.dlsymRes h "lvacfs_SetParamsFilePath" with
  | none => (ops5, false)
  | some p6 =>
  let ops6 := { ops5 with set_params_file_path := some p6 }
  match env.dlsymRes h "lvacfs_wrapper_SetProfile" with
  | none => (ops6, false)
  | some p7 =>
  let ops7 := { ops6 with set_profile := some p7 }
  match env.dlsymRes h "lvacfs_wrapper_SetAudioDirection" with
  | none => (ops7, false)
  | some p8 =>
  let ops8 := { ops7 with set_audio_direction := some p8 }
  match env.dlsymRes h "lvacfs_wrapper_SetDeviceOrientation" with
  | none => (ops8, false)
  | some p9 =>
  let ops9 := { ops8 with set_device_orientation := some p9 }
  match env.dlsymRes h "lvacfs_wrapper_GetVersions" with
  | none => (ops9, false)
  | some p10 =>
  ({ ops9 with get_versions := some p10 }, true)

/-- Lines 48-89 of `init`, after the params directory was resolved:
allocate the ops struct, load the library (overlay first), resolve all
symbols, and call `deinit` when any symbol is missing. -/
def initBody (env : InitEnv) (s1 : LvacfsState) : LvacfsState × List EngineEvent :=
  if !env.allocWrapperOps then
    ({ s1 with wrapper_ops_ := none }, [])
  else
    match loadWrapperLib env with
    | none =>
      ({ s1 with wrapper_ops_ := some { WrapperOps.valueInit with lib_handle := none } }, [])
    | some h =>
      match resolveSymbols env h { WrapperOps.valueInit with lib_handle := some h } with
      | (opsPart, false) => deinit { s1 with wrapper_ops_ := some opsPart }
      | (opsFull, true) => ({ s1 with wrapper_ops_ := some opsFull }, [])

/-- Lines 38-90: `Lvacfs::init`.  Lines 39-46 resolve the params
directory, ODM first, aborting when neither candidate exists; the rest is
`initBody`. -/
def init (env : InitEnv) (s : LvacfsState) : LvacfsState × List EngineEvent :=
  if env.odmParamsDirExists then
    initBody env { s with params_file_path_ := some ODM_PARAMS_DIR_PATH }
  else if env.vendorParamsDirExists then
    initBody env { s with params_file_path_ := some VENDOR_PARAMS_DIR_PATH }
  else
    (s, [])

/-- The ten capability entries of the struct, in source order. -/
def capsList (ops : WrapperOps) : List (Option Nat) :=
  [ops.create_instance, ops.destroy_instance, ops.process, ops.update_zoom_info,
   ops.update_angle_info, ops.set_params_file_path, ops.set_profile,
   ops.set_audio_direction, ops.set_device_orientation, ops.get_versions]

/-- Whether every capability entry of the struct is resolved. -/
def capsAllSome (ops : WrapperOps) : Bool :=
  (capsList ops).all Option.isSome

/-- The module handle a caller can observe: null when the ops struct is
absent or its `lib_handle` member is null. -/
def moduleHandle (s : LvacfsState) : Option Nat :=
  match s.wrapper_ops_ with
  | some ops => ops.lib_handle
  | none => none

/-- The capability table a caller can observe: all null when the ops
struct is absent. -/
def callableCaps (s : LvacfsState) : List (Option Nat) :=
  match s.wrapper_ops_ with
  | some ops => capsList ops
  | none => List.replicate 10 none

/-- Ready state: module handle non-null and all ten capabilities resolved. -/
def ready (s : LvacfsState) : Bool :=
  (moduleHandle s).isSome && (callableCaps s).all Option.isSome

/-- Inert state: module handle null and no capability callable. -/
def inert (s : LvacfsState) : Bool :=
  (moduleHandle s).isNone && (callableCaps s).all Option.isNone

/-- The parts of the stream's `config_` that the session operations read:
`sample_rate` (a `uint32_t` field), together with the values the external
helpers return on it — `channel_count` is the result of
`audio_channel_count_from_in_mask(config_.channel_mask)` and
`bytes_per_sample` the result of `audio_bytes_per_sample(config_.format)`
(both helpers belong to the audio framework, outside this repository). -/
structure AudioConfig where
  sample_rate : Nat
  channel_count : Nat
  bytes_per_sample : Nat
deriving DecidableEq

/-- The fields of `StreamInPrimary` the session operations touch.
`lvacfs_handle` is a `void**`: the outer `Option` is the allocated slot
(`none` models the null pointer), the inner `Option Nat` the module
instance stored in the slot (`none` models a null instance, which is what
`calloc` leaves there before `create_instance` succeeds). -/
structure StreamInPrimary where
  config_ : AudioConfig
  source_ : Nat
  lvacfs_handle : Option (Option Nat)
deriving DecidableEq

/-- Outcomes of the external calls the session operations make: the
`calloc` of the handle slot, and the return codes of the module's
create-instance, process and destroy-instance capabilities (with the
instance value a successful create stores through the slot). -/
structure SessionEnv where
  callocOk : Bool
  createRet : Int
  createdInstance : Nat
  processRet : Int
  destroyRet : Int
deriving DecidableEq

/-- Capability invocations a session operation performs, with their
arguments as the code passes them. -/
inductive SessionEvent
  | setParamsFilePathEv (path : Option String)
  | createInstanceEv (handle : Option (Option Nat)) (source : Nat)
      (sample_rate_and_format : Nat) (channels : Nat)
  | processEv (handle : Option (Option Nat)) (num_frames : Nat)
  | destroyInstanceEv (handle : Option (Option Nat))
deriving DecidableEq

/-- Line 108: `((channel_count & 0xFFFF) << 16) | (channel_count & 0xFFFF)`,
assigned to a `uint32_t`. -/
def packChannels (channel_count : Nat) : Nat :=
  (((channel_count &&& 0xFFFF) <<< 16) ||| (channel_count &&& 0xFFFF)) % 2 ^ 32

/-- Line 110: `((uint64_t)0 << 32) | in->config_.sample_rate`, a
`uint64_t` whose format half is the constant 0. -/
def sampleRateAndFormat (sample_rate : Nat) : Nat :=
  (((0 : Nat) <<< 32) ||| sample_rate) % 2 ^ 64

/-- Line 122: `bytes / (channel_count * audio_bytes_per_sample(...))`,
assigned to a `uint32_t` (hence the reduction modulo `2 ^ 32`). -/
def numFrames (bytes channel_count bytes_per_sample : Nat) : Nat :=
  (bytes / (channel_count * bytes_per_sample)) % 2 ^ 32

/-- Line 122 with the C semantics of division made explicit: the source
has no zero guard, and a zero divisor is undefined behavior, rendered
here as `none`. -/
def numFramesChecked (bytes channel_count bytes_per_sample : Nat) : Option Nat :=
  if channel_count * bytes_per_sample = 0 then none
  else some ((bytes / (channel_count * bytes_per_sample)) % 2 ^ 32)

/-- Lines 131-138: `Lvacfs::stopInputStream`.  Invokes the
destroy-instance capability on the session's handle unconditionally, logs
(only) a negative return, then frees the slot and nulls the pointer. -/
def stopInputStream (env : SessionEnv) (stIn : StreamInPrimary) :
    StreamInPrimary × List SessionEvent :=
  ({ stIn with lvacfs_handle := none },
   [SessionEvent.destroyInstanceEv stIn.lvacfs_handle])

/-- Lines 100-117: `Lvacfs::startInputStream`.  Allocates the
zero-initialized handle slot, pushes the params path, packs the stream
parameters, invokes create-instance, and on a negative return tears the
session down through `stopInputStream`. -/
def startInputStream (s : LvacfsState) (env : SessionEnv) (stIn : StreamInPrimary) :
    StreamInPrimary × List SessionEvent :=
  if !env.callocOk then
    ({ stIn with lvacfs_handle := none }, [])
  else
    let st1 := { stIn with lvacfs_handle := some none }
    let ev0 := SessionEvent.setParamsFilePathEv s.params_file_path_
    let channels := packChannels st1.config_.channel_count
    let srf := sampleRateAndFormat st1.config_.sample_rate
    let evC := SessionEvent.createInstanceEv st1.lvacfs_handle st1.source_ srf channels
    if env.createRet < 0 then
      let stopped := stopInputStream env st1
      (stopped.1, ev0 :: evC :: stopped.2)
    else
      ({ st1 with lvacfs_handle := some (some env.createdInstance) }, [ev0, evC])

/-- Lines 119-129: `Lvacfs::processInputStream`.  Under the session's
lock, computes the frame count, invokes the process capability in place,
and on a negative return tears the session down through
`stopInputStream`. -/
def processInputStream (env : SessionEnv) (stIn : StreamInPrimary) (bytes : Nat) :
    StreamInPrimary × List SessionEvent :=
  let nf := numFrames bytes stIn.config_.channel_count stIn.config_.bytes_per_sample
  let evP := SessionEvent.processEv stIn.lvacfs_handle nf
  if env.processRet < 0 then
    let stopped := stopInputStream env stIn
    (stopped.1, evP :: stopped.2)
  else
    (stIn, [evP])

/-! Helper lemmas shared by the claim theorems. -/

/-- When the symbol-resolution chain reports success, the library handle
of the struct is untouched and every capability entry is resolved. -/
theorem resolveSymbols_ok (env : InitEnv) (h : Nat) (ops0 : WrapperOps)
    (hs : (resolveSymbols env h ops0).2 = true) :
    (resolveSymbols env h ops0).1.lib_handle = ops0.lib_handle
      ∧ capsAllSome (resolveSymbols env h ops0).1 = true := by
  unfold resolveSymbols at *
  cases e1 : env.dlsymRes h "lvacfs_wrapper_CreateLibraryInstance" <;> simp [e1] at hs ⊢
  cases e2 : env.dlsymRes h "lvacfs_wrapper_DestroyLibraryInstance" <;> simp [e2] at hs ⊢
  cases e3 : env.dlsymRes h "lvacfs_wrapper_Process" <;> simp [e3] at hs ⊢
  cases e4 : env.dlsymRes h "lvacfs_wrapper_UpdateZoomInfo" <;> simp [e4] at hs ⊢
  cases e5 : env.dlsymRes h "lvacfs_wrapper_UpdateAngleInfo" <;> simp [e5] at hs ⊢
  cases e6 : env.dlsymRes h "lvacfs_SetParamsFilePath" <;> simp [e6] at hs ⊢
  cases e7 : env.dlsymRes h "lvacfs_wrapper_SetProfile" <;> simp [e7] at hs ⊢
  cases e8 : env.dlsymRes h "lvacfs_wrapper_SetAudioDirection" <;> simp [e8] at hs ⊢
  cases e9 : env.dlsymRes h "lvacfs_wrapper_SetDeviceOrientation" <;> simp [e9] at hs ⊢
  cases e10 : env.dlsymRes h "lvacfs_wrapper_GetVersions" <;> simp [e10] at hs ⊢
  simp [capsAllSome, capsList]

/-- Every run of the post-path part of `init` ends in one of three
states: the ops struct is gone, the ops struct is the value-initialized
one with a null handle, or the engine is ready. -/
theorem initBody_shapes (env : InitEnv) (s1 : LvacfsState) :
    (initBody env s1).1.wrapper_ops_ = none
  ∨ (initBody env s1).1.wrapper_ops_ = some { WrapperOps.valueInit with lib_handle := none }
  ∨ ready (initBody env s1).1 = true := by
  unfold initBody
  split
  · left; rfl
  · split
    · right; left; rfl
    · split
      · left; simp [deinit]
      · rename_i opsFull heqRes
        have hok := resolveSymbols_ok _ _ _ (by rw [heqRes] : (resolveSymbols _ _ _).2 = true)
        rw [heqRes] at hok
        right; right
        obtain ⟨hlib, hcaps⟩ := hok
        simp at hlib
        simp only [capsAllSome] at hcaps
        simp [ready, moduleHandle, callableCaps, hlib, hcaps]

/-- The post-path part of `init` never changes `params_file_path_`. -/
theorem initBody_params (env : InitEnv) (s1 : LvacfsState) :
    (initBody env s1).1.params_file_path_ = s1.params_file_path_ := by
  unfold initBody
  split
  · rfl
  · split
    · rfl
    · split
      · simp [deinit]
      · rfl

/-- A state whose ops struct is gone, or is the value-initialized struct
with a null handle, is inert and shows the same module handle and
capability table as the fresh engine. -/
theorem inert_of_shape (s : LvacfsState)
    (hs : s.wrapper_ops_ = none
      ∨ s.wrapper_ops_ = some { WrapperOps.valueInit with lib_handle := none }) :
    inert s = true ∧ moduleHandle s = moduleHandle LvacfsState.fresh
      ∧ callableCaps s = callableCaps LvacfsState.fresh := by
  rcases hs with hs | hs <;>
    simp [inert, moduleHandle, callableCaps, hs, WrapperOps.valueInit, capsList,
      LvacfsState.fresh, List.replicate]

/-- Ready and inert are mutually exclusive. -/
theorem not_ready_and_inert (s : LvacfsState) :
    ¬ (ready s = true ∧ inert s = true) := by
  rintro ⟨hr, hi⟩
  simp only [ready, Bool.and_eq_true] at hr
  simp only [inert, Bool.and_eq_true] at hi
  cases hm : moduleHandle s with
  | none => rw [hm] at hr; exact absurd hr.1 (by simp)
  | some h => rw [hm] at hi; exact absurd hi.1 (by simp)

/-! Claim theorems. -/

/-- C1: for every combination of config-path existence, allocation,
dlopen outcome and per-symbol dlsym outcome, `init` leaves the engine in
exactly one of two observable states: ready (module handle non-null and
all ten capabilities resolved) or inert (module handle null, no
capability callable, and the module handle and capability table equal
those of an engine on which `init` was never called); no partially-bound
state is observable. -/
theorem init_all_or_nothing (env : InitEnv) :
    (ready (init env LvacfsState.fresh).1 = true
      ∨ (inert (init env LvacfsState.fresh).1 = true
          ∧ moduleHandle (init env LvacfsState.fresh).1 = moduleHandle LvacfsState.fresh
          ∧ callableCaps (init env LvacfsState.fresh).1 = callableCaps LvacfsState.fresh))
  ∧ ¬ (ready (init env LvacfsState.fresh).1 = true
        ∧ inert (init env LvacfsState.fresh).1 = true) := by
  constructor
  · have key : ∀ s1 : LvacfsState,
        ready (initBody env s1).1 = true
          ∨ (inert (initBody env s1).1 = true
              ∧ moduleHandle (initBody env s1).1 = moduleHandle LvacfsState.fresh
              ∧ callableCaps (initBody env s1).1 = callableCaps LvacfsState.fresh) := by
      intro s1
      rcases initBody_shapes env s1 with h | h | h
      · exact Or.inr (inert_of_shape _ (Or.inl h))
      · exact Or.inr (inert_of_shape _ (Or.inr h))
      · exact Or.inl h
    unfold init
    split
    · exact key _
    · split
      · exact key _
      · exact Or.inr (inert_of_shape _ (Or.inl rfl))
  · exact not_ready_and_inert _

/-- Witness for C1 at a concrete environment in which both params
directories exist, allocation succeeds, dlopen yields handle 1 and every
dlsym yields address 2. -/
theorem init_all_or_nothing_witness :
    (ready (init ⟨true, true, true, fun _ => some 1, fun _ _ => some 2⟩
        LvacfsState.fresh).1 = true
      ∨ (inert (init ⟨true, true, true, fun _ => some 1, fun _ _ => some 2⟩
            LvacfsState.fresh).1 = true
          ∧ moduleHandle (init ⟨true, true, true, fun _ => some 1, fun _ _ => some 2⟩
              LvacfsState.fresh).1 = moduleHandle LvacfsState.fresh
          ∧ callableCaps (init ⟨true, true, true, fun _ => some 1, fun _ _ => some 2⟩
              LvacfsState.fresh).1 = callableCaps LvacfsState.fresh))
  ∧ ¬ (ready (init ⟨true, true, true, fun _ => some 1, fun _ _ => some 2⟩
        LvacfsState.fresh).1 = true
      ∧ inert (init ⟨true, true, true, fun _ => some 1, fun _ _ => some 2⟩
          LvacfsState.fresh).1 = true) :=
  init_all_or_nothing ⟨true, true, true, fun _ => some 1, fun _ _ => some 2⟩

/-- C2: config-path resolution is overlay-first (the ODM params directory
wins whenever it exists, else the vendor one, else `init` aborts with the
state unchanged), and the module binary is loaded with the same priority
(ODM library path first, vendor second, first success winning, both
failing leaving the engine inert). -/
theorem overlay_first_priority (env : InitEnv) :
    (env.odmParamsDirExists = true →
        (init env LvacfsState.fresh).1.params_file_path_ = some ODM_PARAMS_DIR_PATH)
  ∧ (env.odmParamsDirExists = false → env.vendorParamsDirExists = true →
        (init env LvacfsState.fresh).1.params_file_path_ = some VENDOR_PARAMS_DIR_PATH)
  ∧ (env.odmParamsDirExists = false → env.vendorParamsDirExists = false →
        (init env LvacfsState.fresh).1 = LvacfsState.fresh)
  ∧ (∀ h, env.dlopenRes ODM_LIB_PATH = some h → loadWrapperLib env = some h)
  ∧ (env.dlopenRes ODM_LIB_PATH = none →
        loadWrapperLib env = env.dlopenRes VENDOR_LIB_PATH)
  ∧ (env.allocWrapperOps = true → loadWrapperLib env = none →
        (env.odmParamsDirExists = true ∨ env.vendorParamsDirExists = true) →
        inert (init env LvacfsState.fresh).1 = true) := by
  refine ⟨?_, ?_, ?_, ?_, ?_, ?_⟩
  · intro ho
    simp [init, ho, initBody_params]
  · intro ho hv
    simp [init, ho, hv, initBody_params]
  · intro ho hv
    simp [init, ho, hv]
  · intro h hh
    simp [loadWrapperLib, hh]
  · intro hh
    simp [loadWrapperLib, hh]
  · intro halloc hload hdir
    have hbody : ∀ s1 : LvacfsState, inert (initBody env s1).1 = true := by
      intro s1
      have hsh : (initBody env s1).1.wrapper_ops_
          = some { WrapperOps.valueInit with lib_handle := none } := by
        simp [initBody, halloc, hload]
      exact (inert_of_shape _ (Or.inr hsh)).1
    unfold init
    split
    · exact hbody _
    · split
      · exact hbody _
      · rename_i h1 h2
        rcases hdir with ho | hv
        · exact absurd ho (by simpa using h1)
        · exact absurd hv (by simpa using h2)

/-- Witness for C2: with the ODM params directory present and dlopen of
the ODM library path returning handle 1, the resolved params path is the
ODM one and the loaded handle is the ODM one. -/
theorem overlay_first_priority_witness :
    (init ⟨true, false, true, fun _ => some 1, fun _ _ => some 2⟩
        LvacfsState.fresh).1.params_file_path_ = some ODM_PARAMS_DIR_PATH
  ∧ loadWrapperLib ⟨true, false, true, fun _ => some 1, fun _ _ => some 2⟩ = some 1 :=
  ⟨(overlay_first_priority ⟨true, false, true, fun _ => some 1, fun _ _ => some 2⟩).1 rfl,
   (overlay_first_priority ⟨true, false, true, fun _ => some 1, fun _ _ => some 2⟩).2.2.2.1
      1 rfl⟩

/-- C7: `deinit` is safe and idempotent from every state — on an inert
engine it is a no-op beyond clearing state, a second call in a row does
nothing, and after any call the capability table is cleared and the
library, if one was loaded, is the one `dlclose`d. -/
theorem deinit_idempotent_safe (s : LvacfsState) :
    (deinit (deinit s).1).1 = (deinit s).1
  ∧ (deinit s).1.wrapper_ops_ = none
  ∧ callableCaps (deinit s).1 = List.replicate 10 none
  ∧ (deinit (deinit s).1).2 = []
  ∧ (s.wrapper_ops_ = none → (deinit s).1 = s ∧ (deinit s).2 = [])
  ∧ (∀ h, moduleHandle s = some h → (deinit s).2 = [EngineEvent.dlcloseEv h])
  ∧ (moduleHandle s = none → (deinit s).2 = []) := by
  obtain ⟨p, w⟩ := s
  refine ⟨rfl, rfl, rfl, rfl, ?_, ?_, ?_⟩
  · intro hw
    simp only at hw
    subst hw
    exact ⟨rfl, rfl⟩
  · intro h hm
    cases w with
    | none => simp [moduleHandle] at hm
    | some ops =>
      simp [moduleHandle] at hm
      simp [deinit, hm]
  · intro hm
    cases w with
    | none => rfl
    | some ops =>
      simp [moduleHandle] at hm
      simp [deinit, hm]

/-- Witness for C7 at a loaded engine and at the fresh engine. -/
theorem deinit_idempotent_safe_witness :
    (deinit (⟨some "/odm/etc/lvacfs_params",
        some { WrapperOps.valueInit with lib_handle := some 7 }⟩ : LvacfsState)).2
      = [EngineEvent.dlcloseEv 7]
  ∧ (deinit (deinit (⟨some "/odm/etc/lvacfs_params",
        some { WrapperOps.valueInit with lib_handle := some 7 }⟩ : LvacfsState)).1).1
      = (deinit (⟨some "/odm/etc/lvacfs_params",
        some { WrapperOps.valueInit with lib_handle := some 7 }⟩ : LvacfsState)).1
  ∧ (deinit LvacfsState.fresh).1 = LvacfsState.fresh
  ∧ (deinit LvacfsState.fresh).2 = [] :=
  ⟨(deinit_idempotent_safe _).2.2.2.2.2.1 7 rfl,
   (deinit_idempotent_safe _).1,
   ((deinit_idempotent_safe LvacfsState.fresh).2.2.2.2.1 rfl).1,
   ((deinit_idempotent_safe LvacfsState.fresh).2.2.2.2.1 rfl).2⟩

/-- C3: a session whose create-instance call returns a negative code in
`startInputStream`, or whose process call returns a negative code in
`processInputStream`, is torn down through the stop path and ends with
the handle null — the observable state of a session that was never
started. -/
theorem failed_session_like_never_started (s : LvacfsState) (env : SessionEnv)
    (stIn : StreamInPrimary) (bytes : Nat) :
    (env.callocOk = true → env.createRet < 0 →
        (startInputStream s env stIn).1 = { stIn with lvacfs_handle := none }
        ∧ SessionEvent.destroyInstanceEv (some none) ∈ (startInputStream s env stIn).2)
  ∧ (env.processRet < 0 →
        (processInputStream env stIn bytes).1 = { stIn with lvacfs_handle := none }
        ∧ SessionEvent.destroyInstanceEv stIn.lvacfs_handle
            ∈ (processInputStream env stIn bytes).2) := by
  obtain ⟨cfg, src, hd⟩ := stIn
  constructor
  · intro hc hr
    simp [startInputStream, stopInputStream, hc, hr]
  · intro hr
    simp [processInputStream, stopInputStream, hr]

/-- Witness for C3: a create failure (code -1) and a process failure
(code -1) on concrete sessions both end with a null handle after a
destroy-capability teardown. -/
theorem failed_session_like_never_started_witness :
    ((startInputStream LvacfsState.fresh ⟨true, -1, 0, 0, 0⟩
        ⟨⟨48000, 2, 2⟩, 1, none⟩).1
      = { (⟨⟨48000, 2, 2⟩, 1, none⟩ : StreamInPrimary) with lvacfs_handle := none }
      ∧ SessionEvent.destroyInstanceEv (some none)
          ∈ (startInputStream LvacfsState.fresh ⟨true, -1, 0, 0, 0⟩
              ⟨⟨48000, 2, 2⟩, 1, none⟩).2)
  ∧ ((processInputStream ⟨true, 0, 0, -1, 0⟩ ⟨⟨48000, 2, 2⟩, 1, some (some 5)⟩ 3200).1
      = { (⟨⟨48000, 2, 2⟩, 1, some (some 5)⟩ : StreamInPrimary) with lvacfs_handle := none }
      ∧ SessionEvent.destroyInstanceEv (some (some 5))
          ∈ (processInputStream ⟨true, 0, 0, -1, 0⟩
              ⟨⟨48000, 2, 2⟩, 1, some (some 5)⟩ 3200).2) :=
  ⟨(failed_session_like_never_started LvacfsState.fresh ⟨true, -1, 0, 0, 0⟩
      ⟨⟨48000, 2, 2⟩, 1, none⟩ 0).1 rfl (by decide),
   (failed_session_like_never_started ⟨none, none⟩ ⟨true, 0, 0, -1, 0⟩
      ⟨⟨48000, 2, 2⟩, 1, some (some 5)⟩ 3200).2 (by decide)⟩

/-- C6: `stopInputStream` invokes the destroy-instance capability with
the session's handle, and regardless of the destroy return code (which is
only logged) the teardown proceeds: the handle is nulled and the rest of
the stream is untouched. -/
theorem stop_clears_regardless (env : SessionEnv) (stIn : StreamInPrimary) :
    (stopInputStream env stIn).2 = [SessionEvent.destroyInstanceEv stIn.lvacfs_handle]
  ∧ (stopInputStream env stIn).1.lvacfs_handle = none
  ∧ (stopInputStream env stIn).1.config_ = stIn.config_
  ∧ (stopInputStream env stIn).1.source_ = stIn.source_
  ∧ ∀ env2 : SessionEnv, stopInputStream env2 stIn = stopInputStream env stIn :=
  ⟨rfl, rfl, rfl, rfl, fun _ => rfl⟩

/-- C8 counterexample: when create-instance fails, the teardown performed
by `startInputStream` does invoke the destroy capability on the
pre-creation handle (here at a concrete ready engine, source 1, stereo
48 kHz, create returning -1). -/
theorem create_fail_invokes_destroy_counterexample :
    SessionEvent.destroyInstanceEv (some none)
      ∈ (startInputStream (⟨some "/odm/etc/lvacfs_params", none⟩ : LvacfsState)
          ⟨true, -1, 0, 0, 0⟩ ⟨⟨48000, 2, 2⟩, 1, none⟩).2 := by
  decide

/-- C8 amended: the create-failure teardown does call the destroy
capability, but always on the zero-initialized slot (instance pointer
null, as `calloc` left it) — never on a successfully created instance —
and it then frees and nulls the handle. -/
theorem create_fail_teardown (s : LvacfsState) (env : SessionEnv) (stIn : StreamInPrimary)
    (hc : env.callocOk = true) (hr : env.createRet < 0) :
    (startInputStream s env stIn).1.lvacfs_handle = none
  ∧ (startInputStream s env stIn).2.getLast?
      = some (SessionEvent.destroyInstanceEv (some none))
  ∧ ∀ inst, SessionEvent.destroyInstanceEv (some (some inst))
      ∉ (startInputStream s env stIn).2 := by
  obtain ⟨cfg, src, hd⟩ := stIn
  simp [startInputStream, stopInputStream, hc, hr]

/-- Witness for C8's amended claim at a concrete mono stream whose create
call returns -2. -/
theorem create_fail_teardown_witness :
    (startInputStream LvacfsState.fresh ⟨true, -2, 0, 0, 0⟩
        ⟨⟨16000, 1, 2⟩, 6, none⟩).1.lvacfs_handle = none
  ∧ (startInputStream LvacfsState.fresh ⟨true, -2, 0, 0, 0⟩
        ⟨⟨16000, 1, 2⟩, 6, none⟩).2.getLast?
      = some (SessionEvent.destroyInstanceEv (some none))
  ∧ ∀ inst, SessionEvent.destroyInstanceEv (some (some inst))
      ∉ (startInputStream LvacfsState.fresh ⟨true, -2, 0, 0, 0⟩
          ⟨⟨16000, 1, 2⟩, 6, none⟩).2 :=
  create_fail_teardown LvacfsState.fresh ⟨true, -2, 0, 0, 0⟩
    ⟨⟨16000, 1, 2⟩, 6, none⟩ rfl (by decide)

/-- C5: the packed channel value carries the channel count in both its
upper and its lower 16 bits, the combined sample-rate-and-format value
carries 0 in its upper 32 bits and the sample rate in its lower 32 bits,
and `startInputStream` passes exactly these two values to the
create-instance capability (right after pushing the params path). -/
theorem packed_stream_params (cc sr : Nat) (hcc : cc < 2 ^ 16) (hsr : sr < 2 ^ 32) :
    packChannels cc / 2 ^ 16 = cc
  ∧ packChannels cc % 2 ^ 16 = cc
  ∧ sampleRateAndFormat sr / 2 ^ 32 = 0
  ∧ sampleRateAndFormat sr % 2 ^ 32 = sr
  ∧ ∀ (s : LvacfsState) (env : SessionEnv) (stIn : StreamInPrimary),
      env.callocOk = true →
      (startInputStream s env stIn).2.take 2
        = [SessionEvent.setParamsFilePathEv s.params_file_path_,
           SessionEvent.createInstanceEv (some none) stIn.source_
             (sampleRateAndFormat stIn.config_.sample_rate)
             (packChannels stIn.config_.channel_count)] := by
  have e16 : (2 : Nat) ^ 16 = 65536 := by norm_num
  have e32 : (2 : Nat) ^ 32 = 4294967296 := by norm_num
  have hcc' : cc < 65536 := e16 ▸ hcc
  have hand : cc &&& 0xFFFF = cc := by
    have h1 := Nat.and_pow_two_sub_one_eq_mod cc 16
    norm_num at h1
    rw [h1]
    omega
  have hor : (cc <<< 16) ||| cc = 2 ^ 16 * cc + cc := by
    rw [Nat.shiftLeft_eq, Nat.mul_comm]
    exact (Nat.mul_add_lt_is_or hcc cc).symm
  have hpc : packChannels cc = 2 ^ 16 * cc + cc := by
    unfold packChannels
    rw [hand, hor]
    apply Nat.mod_eq_of_lt
    rw [e16, e32]
    omega
  have hsrf : sampleRateAndFormat sr = sr := by
    unfold sampleRateAndFormat
    rw [Nat.zero_shiftLeft]
    rw [Nat.zero_or]
    exact Nat.mod_eq_of_lt (lt_trans hsr (by norm_num))
  refine ⟨?_, ?_, ?_, ?_, ?_⟩
  · rw [hpc, e16]
    rw [e16] at hcc
    omega
  · rw [hpc, e16]
    rw [e16] at hcc
    omega
  · rw [hsrf]
    exact Nat.div_eq_of_lt hsr
  · rw [hsrf]
    exact Nat.mod_eq_of_lt hsr
  · intro s env stIn hc
    simp only [startInputStream, hc, Bool.not_true]
    norm_num
    split <;> rfl

/-- Witness for C5 at a stereo 48 kHz stream. -/
theorem packed_stream_params_witness :
    packChannels 2 / 2 ^ 16 = 2
  ∧ packChannels 2 % 2 ^ 16 = 2
  ∧ sampleRateAndFormat 48000 / 2 ^ 32 = 0
  ∧ sampleRateAndFormat 48000 % 2 ^ 32 = 48000
  ∧ (startInputStream LvacfsState.fresh ⟨true, 0, 9, 0, 0⟩
        ⟨⟨48000, 2, 2⟩, 1, none⟩).2.take 2
      = [SessionEvent.setParamsFilePathEv none,
         SessionEvent.createInstanceEv (some none) 1
           (sampleRateAndFormat 48000) (packChannels 2)] := by
  have h := packed_stream_params 2 48000 (by decide) (by decide)
  exact ⟨h.1, h.2.1, h.2.2.1, h.2.2.2.1, h.2.2.2.2 _ _ _ rfl⟩

/-- C4 counterexample: `num_frames` is a `uint32_t`, so on an LP64 build
a 2^34-byte buffer with 2 channels of 2 bytes per sample passes frame
count 0 to the process capability, not 2^34 / (2 * 2) = 2^32, even though
2^34 is an exact multiple of 4. -/
theorem frame_count_truncates_counterexample :
    (processInputStream ⟨true, 0, 0, 0, 0⟩
        ⟨⟨48000, 2, 2⟩, 0, some (some 5)⟩ (2 ^ 34)).2.head?
      ≠ some (SessionEvent.processEv (some (some 5)) (2 ^ 34 / (2 * 2))) := by
  decide

/-- C4 amended: whenever bytes is an exact multiple of channel count
times bytes per sample and the quotient fits in 32 bits, the frame count
passed to the process capability equals bytes / (channels ×
bytes_per_sample). -/
theorem frame_count_exact (env : SessionEnv) (stIn : StreamInPrimary) (bytes : Nat)
    (hdvd : (stIn.config_.channel_count * stIn.config_.bytes_per_sample) ∣ bytes)
    (hfit : bytes / (stIn.config_.channel_count * stIn.config_.bytes_per_sample) < 2 ^ 32) :
    (processInputStream env stIn bytes).2.head?
      = some (SessionEvent.processEv stIn.lvacfs_handle
          (bytes / (stIn.config_.channel_count * stIn.config_.bytes_per_sample))) := by
  have hnf : numFrames bytes stIn.config_.channel_count stIn.config_.bytes_per_sample
      = bytes / (stIn.config_.channel_count * stIn.config_.bytes_per_sample) := by
    unfold numFrames
    exact Nat.mod_eq_of_lt hfit
  simp only [processInputStream]
  split <;> simp [hnf, stopInputStream]

/-- Witness for C4's amended claim at the two buffer sizes the design
names: 3200 bytes stereo 16-bit gives 800 frames and 320 bytes mono
16-bit gives 160 frames. -/
theorem frame_count_exact_witness :
    ((2 * 2) ∣ 3200 ∧ 3200 / (2 * 2) < 2 ^ 32
      ∧ (processInputStream ⟨true, 0, 0, 0, 0⟩
            ⟨⟨48000, 2, 2⟩, 0, some (some 5)⟩ 3200).2.head?
          = some (SessionEvent.processEv (some (some 5)) 800))
  ∧ ((1 * 2) ∣ 320 ∧ 320 / (1 * 2) < 2 ^ 32
      ∧ (processInputStream ⟨true, 0, 0, 0, 0⟩
            ⟨⟨16000, 1, 2⟩, 0, some (some 6)⟩ 320).2.head?
          = some (SessionEvent.processEv (some (some 6)) 160)) := by
  refine ⟨⟨by decide, by decide, ?_⟩, by decide, by decide, ?_⟩
  · exact frame_count_exact ⟨true, 0, 0, 0, 0⟩
      ⟨⟨48000, 2, 2⟩, 0, some (some 5)⟩ 3200 (by decide) (by decide)
  · exact frame_count_exact ⟨true, 0, 0, 0, 0⟩
      ⟨⟨16000, 1, 2⟩, 0, some (some 6)⟩ 320 (by decide) (by decide)

/-- C10: the frame-count division has no zero guard (a zero channel count
or zero sample width is undefined behavior), and under the unstated
precondition that both are at least 1 the division is well-defined and
produces exactly the value the code computes. -/
theorem frame_division_guarded_by_precondition (bytes c w : Nat) :
    numFramesChecked bytes 0 w = none
  ∧ numFramesChecked bytes c 0 = none
  ∧ (1 ≤ c → 1 ≤ w →
      numFramesChecked bytes c w = some (numFrames bytes c w)) := by
  refine ⟨by simp [numFramesChecked], by simp [numFramesChecked], ?_⟩
  intro hc hw
  have hne : c * w ≠ 0 := Nat.mul_ne_zero (by omega) (by omega)
  simp [numFramesChecked, numFrames, hne]

/-- Witness for C10 at a stereo 16-bit stream and a 3200-byte buffer. -/
theorem frame_division_guarded_witness :
    1 ≤ 2 ∧ numFramesChecked 3200 2 2 = some (numFrames 3200 2 2) :=
  ⟨by decide,
   (frame_division_guarded_by_precondition 3200 2 2).2.2 (by decide) (by decide)⟩

end Lvacfs
